import Mathlib

/-!
Verification development for the dask-ssh cluster launcher
(`distributed/deploy/old_ssh.py`).

The Python source is shallowly embedded below.  Pure string-building code
(`start_scheduler` / `start_worker` command construction, Python
`str.format` templating, `str.rstrip`, `str.join`, `os.path.join`) is
translated into executable Lean functions; stateful and concurrent parts
(the `async_ssh` connection-retry loop, queue traffic, `SSHCluster`
construction / `add_worker` / `shutdown` / context management) are
embedded as explicit state passing plus event traces that record the
externally visible actions (thread launches, queue puts, thread joins,
process exit, remote command execution).
-/

set_option maxHeartbeats 4000000
set_option maxRecDepth 100000

/-! ## Python string primitives -/

/-- Left brace character, as used by the Python format-string scanner. -/
def lbrace : Char := '\x7b'

/-- Right brace character, as used by the Python format-string scanner. -/
def rbrace : Char := '\x7d'

/-- Lookup of a key in a keyword-argument environment (Python dict built from
`str.format` keyword arguments; keys are unique in all uses below). -/
def envLookup (env : List (String × String)) (key : String) : String :=
  match env with
  | [] => ""
  | (k, v) :: rest => if k = key then v else envLookup rest key

/-- Scanner for Python `str.format`: copies literal characters, and replaces
each `\x7bname\x7d` placeholder by the value bound to `name` in the
environment.  The second argument is `none` outside a placeholder and
`some acc` (reversed key characters read so far) inside one.  Substituted
values are not rescanned, exactly as in Python. -/
def fmtScan (env : List (String × String)) : List Char → Option (List Char) → List Char
  | [], none => []
  | [], some acc => lbrace :: acc.reverse
  | c :: rest, none =>
    if c = lbrace then fmtScan env rest (some [])
    else c :: fmtScan env rest none
  | c :: rest, some acc =>
    if c = rbrace then (envLookup env (String.mk acc.reverse)).data ++ fmtScan env rest none
    else fmtScan env rest (some (c :: acc))

/-- Embedding of Python `template.format(**env)` for keyword templates. -/
def pyFormat (s : String) (env : List (String × String)) : String :=
  String.mk (fmtScan env s.data none)

/-- Characters stripped by Python `str.rstrip()` with no argument. -/
def pyIsSpaceChar (c : Char) : Bool :=
  c = ' ' || c = '\t' || c = '\n' || c = '\r' || c = '\x0b' || c = '\x0c'

/-- Embedding of Python `str.rstrip()`: drop trailing whitespace. -/
def pyRstrip (s : String) : String :=
  String.mk (s.data.reverse.dropWhile pyIsSpaceChar).reverse

/-- Embedding of Python `", ".join(keys)`. -/
def joinComma : List String → String
  | [] => ""
  | [x] => x
  | x :: y :: rest => x ++ ", " ++ joinComma (y :: rest)

/-- Embedding of the Python truthiness idiom `opt or dflt` for an optional
string: `None` and the empty string are falsy and select the default. -/
def pyOrStr (opt : Option String) (dflt : String) : String :=
  match opt with
  | none => dflt
  | some s => if s = "" then dflt else s

/-- Embedding of Python truthiness for an optional integer parameter:
`None` and `0` are falsy. -/
def pyTruthyNat (o : Option Nat) : Bool :=
  match o with
  | none => false
  | some v => v != 0

/-- Embedding of Python `str()` on an optional integer (`str(None)` is
`"None"`; only reached under a truthiness guard in the code below). -/
def pyStrOptNat : Option Nat → String
  | none => "None"
  | some v => toString v

/-- Embedding of Python `os.path.join(a, b)` for the shapes used by the
source (the second component never names an absolute path there, but the
absolute case is kept for fidelity). -/
def pyPathJoin (a b : String) : String :=
  if b.startsWith "/" then b
  else if a = "" then b
  else if a.endsWith "/" then a ++ b
  else a ++ "/" ++ b

/-- Test whether a character list begins with the given pattern. -/
def startsWithList : List Char → List Char → Bool
  | _, [] => true
  | [], _ :: _ => false
  | h :: hs, n :: ns => h = n && startsWithList hs ns

/-- Embedding of the Python substring test `needle in hay`, on the
character lists of the two strings. -/
def containsSub : List Char → List Char → Bool
  | [], needle => needle.isEmpty
  | h :: hs, needle => startsWithList (h :: hs) needle || containsSub hs needle

/-! ## Terminal color codes (`class bcolors`) -/

/-- Color code `bcolors.FAIL` from the source. -/
def bcolors.FAIL : String := "\x1b[91m"

/-- Color code `bcolors.ENDC` from the source. -/
def bcolors.ENDC : String := "\x1b[0m"

/-- Color code `bcolors.BOLD` from the source. -/
def bcolors.BOLD : String := "\x1b[1m"

/-! ## Basic string lemmas -/

theorem sdata_append (a b : String) : (a ++ b).data = a.data ++ b.data := by
  cases a; cases b; rfl

theorem sdata_inj {a b : String} (h : a.data = b.data) : a = b := by
  cases a; cases b; exact congrArg String.mk h

theorem sappend_assoc (a b c : String) : a ++ b ++ c = a ++ (b ++ c) := by
  apply sdata_inj
  simp [sdata_append]

theorem sappend_empty (a : String) : a ++ "" = a := by
  apply sdata_inj
  simp [sdata_append]

theorem sempty_append (a : String) : "" ++ a = a := by
  apply sdata_inj
  simp [sdata_append]

/-! ## Process Launcher: command construction (`start_scheduler`, `start_worker`)

The ambient local interpreter path (Python `sys.executable`) and, later, the
construction timestamp are runtime environment inputs; they are passed as
explicit parameters. -/

/-- Scheduler launch command, translated from `start_scheduler` in the
source: a base command produced by `str.format`, optionally wrapped with a
directory-creation prefix (an f-string, embedded as concatenation) and a
log-redirection suffix (another `str.format` call). -/
def start_scheduler_cmd (sys_executable : String) (logdir : Option String)
    (addr : String) (port : Nat) (remote_python : Option String) : String :=
  let cmd := pyFormat "{python} -m distributed.cli.dask_scheduler --port {port}"
    [("python", pyOrStr remote_python sys_executable), ("port", toString port)]
  match logdir with
  | none => cmd
  | some ld =>
    let cmd2 := "mkdir -p " ++ ld ++ " && " ++ cmd
    cmd2 ++ pyFormat "&> {logdir}/dask_scheduler_{addr}:{port}.log"
      [("addr", addr), ("port", toString port), ("logdir", ld)]

/-- Worker command template, translated from `start_worker` in the source:
the format template is assembled first, appending each optional flag piece
under the same guards as the Python code (`n_workers != 1`, `not nohost`,
and truthiness of `memory_limit`, `worker_port`, `nanny_port`). -/
def start_worker_template (n_workers : Nat) (nohost : Bool)
    (memory_limit worker_port nanny_port : Option Nat) : String :=
  let cmd := "{python} -m {remote_dask_worker} {scheduler_addr}:{scheduler_port} --nthreads {nthreads}"
    ++ (if n_workers ≠ 1 then " --nworkers {n_workers}" else "")
  let cmd := if !nohost then cmd ++ " --host {worker_addr}" else cmd
  let cmd := if pyTruthyNat memory_limit then cmd ++ " --memory-limit {memory_limit}" else cmd
  let cmd := if pyTruthyNat worker_port then cmd ++ " --worker-port {worker_port}" else cmd
  let cmd := if pyTruthyNat nanny_port then cmd ++ " --nanny-port {nanny_port}" else cmd
  cmd

/-- Keyword environment passed to `cmd.format(...)` in `start_worker`. -/
def start_worker_env (sys_executable : String) (scheduler_addr : String)
    (scheduler_port : Nat) (worker_addr : String) (nthreads n_workers : Nat)
    (memory_limit worker_port nanny_port : Option Nat)
    (remote_python : Option String) (remote_dask_worker : String) :
    List (String × String) :=
  [("python", pyOrStr remote_python sys_executable),
   ("remote_dask_worker", remote_dask_worker),
   ("scheduler_addr", scheduler_addr),
   ("scheduler_port", toString scheduler_port),
   ("worker_addr", worker_addr),
   ("nthreads", toString nthreads),
   ("n_workers", toString n_workers),
   ("memory_limit", pyStrOptNat memory_limit),
   ("worker_port", pyStrOptNat worker_port),
   ("nanny_port", pyStrOptNat nanny_port)]

/-- Worker launch command, translated from `start_worker` in the source:
format the assembled template, then conditionally append the
`--local-directory` piece (guarded by `is not None`), then optionally wrap
with the log-directory prefix and redirection suffix. -/
def start_worker_cmd (sys_executable : String) (logdir : Option String)
    (scheduler_addr : String) (scheduler_port : Nat) (worker_addr : String)
    (nthreads n_workers : Nat) (nohost : Bool)
    (memory_limit worker_port nanny_port : Option Nat)
    (remote_python : Option String) (remote_dask_worker : String)
    (local_directory : Option String) : String :=
  let cmd := pyFormat (start_worker_template n_workers nohost memory_limit worker_port nanny_port)
    (start_worker_env sys_executable scheduler_addr scheduler_port worker_addr
      nthreads n_workers memory_limit worker_port nanny_port remote_python remote_dask_worker)
  let cmd := match local_directory with
    | some d => cmd ++ pyFormat " --local-directory {local_directory}" [("local_directory", d)]
    | none => cmd
  match logdir with
  | none => cmd
  | some ld =>
    let cmd2 := "mkdir -p " ++ ld ++ " && " ++ cmd
    cmd2 ++ pyFormat "&> {logdir}/dask_scheduler_{addr}.log"
      [("addr", worker_addr), ("logdir", ld)]

/-! ## Spec-side command characterizations

These two definitions follow the words of the specification claims (as
amended where the code forces it) rather than the source; the refinement
theorems below compare them with the source translations above. -/

/-- Scheduler command as the (amended) specification describes it: the base
command, and when a log directory is configured, a `mkdir -p <logdir> && `
prefix and a redirection suffix appended with no separating space. -/
def start_scheduler_cmd_spec (sys_executable : String) (logdir : Option String)
    (addr : String) (port : Nat) (remote_python : Option String) : String :=
  let py := pyOrStr remote_python sys_executable
  let base := py ++ " -m distributed.cli.dask_scheduler --port " ++ toString port
  match logdir with
  | none => base
  | some ld =>
    "mkdir -p " ++ ld ++ " && " ++ base
      ++ "&> " ++ ld ++ "/dask_scheduler_" ++ addr ++ ":" ++ toString port ++ ".log"

/-- Worker command as the (amended) specification describes it: exactly the
flags implied by the parameters, where `--nworkers` appears iff the count is
not 1, `--host` is omitted iff host suppression is requested,
`--memory-limit`, `--worker-port`, `--nanny-port` appear iff the parameter
is provided with a nonzero (truthy) value, and `--local-directory` appears
iff the parameter is provided. -/
def start_worker_cmd_spec (sys_executable : String) (logdir : Option String)
    (scheduler_addr : String) (scheduler_port : Nat) (worker_addr : String)
    (nthreads n_workers : Nat) (nohost : Bool)
    (memory_limit worker_port nanny_port : Option Nat)
    (remote_python : Option String) (remote_dask_worker : String)
    (local_directory : Option String) : String :=
  let base := pyOrStr remote_python sys_executable ++ " -m " ++ remote_dask_worker
    ++ " " ++ scheduler_addr ++ ":" ++ toString scheduler_port
    ++ " --nthreads " ++ toString nthreads
    ++ (if n_workers ≠ 1 then " --nworkers " ++ toString n_workers else "")
    ++ (if !nohost then " --host " ++ worker_addr else "")
    ++ (if pyTruthyNat memory_limit then " --memory-limit " ++ pyStrOptNat memory_limit else "")
    ++ (if pyTruthyNat worker_port then " --worker-port " ++ pyStrOptNat worker_port else "")
    ++ (if pyTruthyNat nanny_port then " --nanny-port " ++ pyStrOptNat nanny_port else "")
    ++ (match local_directory with | some d => " --local-directory " ++ d | none => "")
  match logdir with
  | none => base
  | some ld =>
    "mkdir -p " ++ ld ++ " && " ++ base
      ++ "&> " ++ ld ++ "/dask_scheduler_" ++ worker_addr ++ ".log"

/-! ## Format computations for the concrete templates of the source -/

theorem pyFormat_scheduler_base (p q : String) :
    pyFormat "{python} -m distributed.cli.dask_scheduler --port {port}"
      [("python", p), ("port", q)]
    = p ++ " -m distributed.cli.dask_scheduler --port " ++ q := by
  apply sdata_inj
  simp [pyFormat, fmtScan, lbrace, rbrace, envLookup, sdata_append]

theorem pyFormat_scheduler_log_suffix (a p l : String) :
    pyFormat "&> {logdir}/dask_scheduler_{addr}:{port}.log"
      [("addr", a), ("port", p), ("logdir", l)]
    = "&> " ++ l ++ "/dask_scheduler_" ++ a ++ ":" ++ p ++ ".log" := by
  apply sdata_inj
  simp [pyFormat, fmtScan, lbrace, rbrace, envLookup, sdata_append]

theorem pyFormat_local_directory (d : String) :
    pyFormat " --local-directory {local_directory}" [("local_directory", d)]
    = " --local-directory " ++ d := by
  apply sdata_inj
  simp [pyFormat, fmtScan, lbrace, rbrace, envLookup, sdata_append]

theorem pyFormat_worker_log_suffix (a l : String) :
    pyFormat "&> {logdir}/dask_scheduler_{addr}.log" [("addr", a), ("logdir", l)]
    = "&> " ++ l ++ "/dask_scheduler_" ++ a ++ ".log" := by
  apply sdata_inj
  simp [pyFormat, fmtScan, lbrace, rbrace, envLookup, sdata_append]

theorem worker_fmt (sys_executable : String) (scheduler_addr : String)
    (scheduler_port : Nat) (worker_addr : String) (nthreads n_workers : Nat)
    (nohost : Bool) (memory_limit worker_port nanny_port : Option Nat)
    (remote_python : Option String) (remote_dask_worker : String) :
    pyFormat (start_worker_template n_workers nohost memory_limit worker_port nanny_port)
      (start_worker_env sys_executable scheduler_addr scheduler_port worker_addr
        nthreads n_workers memory_limit worker_port nanny_port remote_python remote_dask_worker)
    = pyOrStr remote_python sys_executable ++ " -m " ++ remote_dask_worker
      ++ " " ++ scheduler_addr ++ ":" ++ toString scheduler_port
      ++ " --nthreads " ++ toString nthreads
      ++ (if n_workers ≠ 1 then " --nworkers " ++ toString n_workers else "")
      ++ (if !nohost then " --host " ++ worker_addr else "")
      ++ (if pyTruthyNat memory_limit then " --memory-limit " ++ pyStrOptNat memory_limit else "")
      ++ (if pyTruthyNat worker_port then " --worker-port " ++ pyStrOptNat worker_port else "")
      ++ (if pyTruthyNat nanny_port then " --nanny-port " ++ pyStrOptNat nanny_port else "") := by
  apply sdata_inj
  by_cases h1 : n_workers = 1 <;> by_cases h2 : nohost = true <;>
    by_cases h3 : pyTruthyNat memory_limit = true <;>
    by_cases h4 : pyTruthyNat worker_port = true <;>
    by_cases h5 : pyTruthyNat nanny_port = true <;>
    simp [h1, h2, h3, h4, h5, start_worker_template, start_worker_env, pyFormat,
      fmtScan, lbrace, rbrace, envLookup, sdata_append]

/-! ## Claim C1 and Claim C2 -/

/-- C1 counterexample: the claim states that `--memory-limit` is appended if
and only if the parameter is provided; but with `memory_limit` provided as
`some 0` (a valid dask value meaning "no memory limit"), the source guard
`if memory_limit:` is falsy and the flag is omitted from the command. -/
theorem start_worker_memory_limit_zero_cex :
    start_worker_cmd "python3" none "10.0.0.1" 8786 "10.0.0.2" 4 1 false
      (some 0) none none none "distributed.cli.dask_worker" none
    = "python3 -m distributed.cli.dask_worker 10.0.0.1:8786 --nthreads 4 --host 10.0.0.2"
    ∧ containsSub
      (start_worker_cmd "python3" none "10.0.0.1" 8786 "10.0.0.2" 4 1 false
        (some 0) none none none "distributed.cli.dask_worker" none).data
      "--memory-limit".data = false := by
  constructor
  · rfl
  · rfl

/-- C1 (amended): for every set of worker parameters, `start_worker`
produces a command string containing exactly the flags implied by the
non-default parameters: `--nworkers k` is present iff the worker-process
count `k` is not 1; `--host addr` is omitted iff the host-suppression flag
is set; `--memory-limit`, `--worker-port`, `--nanny-port` are each appended
iff the corresponding parameter is provided with a nonzero (truthy) value;
and `--local-directory` is appended iff the parameter is provided. -/
theorem start_worker_cmd_flags (sys_executable : String) (logdir : Option String)
    (scheduler_addr : String) (scheduler_port : Nat) (worker_addr : String)
    (nthreads n_workers : Nat) (nohost : Bool)
    (memory_limit worker_port nanny_port : Option Nat)
    (remote_python : Option String) (remote_dask_worker : String)
    (local_directory : Option String) :
    start_worker_cmd sys_executable logdir scheduler_addr scheduler_port worker_addr
      nthreads n_workers nohost memory_limit worker_port nanny_port
      remote_python remote_dask_worker local_directory
    = start_worker_cmd_spec sys_executable logdir scheduler_addr scheduler_port worker_addr
      nthreads n_workers nohost memory_limit worker_port nanny_port
      remote_python remote_dask_worker local_directory := by
  cases local_directory <;> cases logdir <;>
    simp only [start_worker_cmd, start_worker_cmd_spec, worker_fmt,
      pyFormat_local_directory, pyFormat_worker_log_suffix] <;>
    (apply sdata_inj; simp [sdata_append])

/-- C2 counterexample: the claim states that with a log directory
configured the command is suffixed with ` &> <logdir>/...log` (with a
separating space before the redirection); the source appends the
redirection with no separating space (`cmd += "&> ..."`), so the claimed
command string differs from the produced one. -/
theorem start_scheduler_space_cex :
    start_scheduler_cmd "python3" (some "/logs") "10.0.0.1" 8786 none
    = "mkdir -p /logs && python3 -m distributed.cli.dask_scheduler --port 8786&> /logs/dask_scheduler_10.0.0.1:8786.log"
    ∧ start_scheduler_cmd "python3" (some "/logs") "10.0.0.1" 8786 none
      ≠ "mkdir -p /logs && python3 -m distributed.cli.dask_scheduler --port 8786 &> /logs/dask_scheduler_10.0.0.1:8786.log" := by
  constructor
  · rfl
  · decide

/-- C2 (amended): for every address, port and credential set,
`start_scheduler` builds `<python> -m distributed.cli.dask_scheduler --port
<port>` (with `<python>` the supplied remote interpreter path, falling back
to the local interpreter when none is given); when a log directory is
configured the command is additionally prefixed with `mkdir -p <logdir> && `
and suffixed with `&> <logdir>/dask_scheduler_<addr>:<port>.log` appended
directly with no separating space, and when no log directory is configured
neither part appears. -/
theorem start_scheduler_cmd_shape (sys_executable : String) (logdir : Option String)
    (addr : String) (port : Nat) (remote_python : Option String) :
    start_scheduler_cmd sys_executable logdir addr port remote_python
    = start_scheduler_cmd_spec sys_executable logdir addr port remote_python := by
  cases logdir <;>
    simp only [start_scheduler_cmd, start_scheduler_cmd_spec,
      pyFormat_scheduler_base, pyFormat_scheduler_log_suffix] <;>
    (apply sdata_inj; simp [sdata_append])

/-! ## Remote Command Runner: output relay (`read_from_stdout`, `read_from_stderr`)

The two nested reader functions of `async_ssh` drain the lines available on
the remote stdout / stderr streams (readline returns the empty string only
at end of stream, and a timeout exception ends the drain).  They are
embedded as functions of the list of lines the successive `readline()`
calls return; the loop stops at the first empty line, and each relayed line
is pushed onto the output queue. -/

/-- Queue entry for one stdout line, translated from the source format call
`"[ {label} ] : {output}".format(...)` applied to the rstripped line. -/
def stdout_entry (label line : String) : String :=
  pyFormat "[ {label} ] : {output}" [("label", label), ("output", pyRstrip line)]

/-- Queue entry for one stderr line, translated from the source: the label
prefix produced by `str.format`, then `bcolors.FAIL`, the rstripped line,
and `bcolors.ENDC`. -/
def stderr_entry (label line : String) : String :=
  pyFormat "[ {label} ] : " [("label", label)]
    ++ bcolors.FAIL ++ pyRstrip line ++ bcolors.ENDC

/-- Entries pushed to the output queue by `read_from_stdout`. -/
def read_from_stdout (label : String) (lines : List String) : List String :=
  (lines.takeWhile (fun l => !l.data.isEmpty)).map (stdout_entry label)

/-- Entries pushed to the output queue by `read_from_stderr`. -/
def read_from_stderr (label : String) (lines : List String) : List String :=
  (lines.takeWhile (fun l => !l.data.isEmpty)).map (stderr_entry label)

theorem stdout_entry_eq (label line : String) :
    stdout_entry label line = "[ " ++ label ++ " ] : " ++ pyRstrip line := by
  apply sdata_inj
  simp [stdout_entry, pyFormat, fmtScan, lbrace, rbrace, envLookup, sdata_append]

theorem stderr_entry_eq (label line : String) :
    stderr_entry label line
    = "[ " ++ label ++ " ] : " ++ bcolors.FAIL ++ pyRstrip line ++ bcolors.ENDC := by
  apply sdata_inj
  simp [stderr_entry, pyFormat, fmtScan, lbrace, rbrace, envLookup, sdata_append]

theorem ne_empty_data {s : String} (h : s ≠ "") : s.data ≠ [] :=
  fun hd => h (sdata_inj (hd.trans rfl))

/-- C6: every stdout line relayed by the runner is stripped of trailing
whitespace and placed on the output channel tagged with the label; every
stderr line likewise, additionally wrapped between the failure color marker
`bcolors.FAIL` and the closing `bcolors.ENDC`; consequently a line arriving
on stderr always produces a channel entry different from the entry the same
line would produce on stdout. -/
theorem stream_relay_spec (label : String) (lines : List String)
    (h : ∀ l ∈ lines, l ≠ "") :
    read_from_stdout label lines = lines.map (stdout_entry label)
    ∧ read_from_stderr label lines = lines.map (stderr_entry label)
    ∧ ∀ lab line, stderr_entry lab line ≠ stdout_entry lab line := by
  have hall : ∀ x ∈ lines, (!x.data.isEmpty) = true := by
    intro x hx
    have hd := ne_empty_data (h x hx)
    cases hxd : x.data with
    | nil => exact absurd hxd hd
    | cons a t => rfl
  refine ⟨?_, ?_, ?_⟩
  · unfold read_from_stdout
    rw [List.takeWhile_eq_self_iff.mpr hall]
  · unfold read_from_stderr
    rw [List.takeWhile_eq_self_iff.mpr hall]
  · intro lab line heq
    rw [stdout_entry_eq, stderr_entry_eq] at heq
    have h2 := congrArg String.length heq
    have hf : bcolors.FAIL.length = 5 := rfl
    have he : bcolors.ENDC.length = 4 := rfl
    simp only [String.length_append, hf, he] at h2
    omega

/-- C6 witness: the relay maps evaluated on a concrete label and line list. -/
theorem stream_relay_spec_witness :
    read_from_stdout "worker 10.0.0.2" ["task ready "]
      = List.map (stdout_entry "worker 10.0.0.2") ["task ready "]
    ∧ read_from_stderr "worker 10.0.0.2" ["task ready "]
      = List.map (stderr_entry "worker 10.0.0.2") ["task ready "] :=
  ⟨(stream_relay_spec "worker 10.0.0.2" ["task ready "] (by decide)).1,
   (stream_relay_spec "worker 10.0.0.2" ["task ready "] (by decide)).2.1⟩

/-! ## Remote Command Runner: connection retry (`async_ssh`)

The connection phase of `async_ssh` is a `while True` loop around
`ssh.connect`.  Each iteration either succeeds (break), raises an
SSH/authentication exception (`SSHException`, `PasswordRequiredException`:
increment the retry counter, call `os._exit(1)` once it reaches 3,
otherwise `sleep(1)` and retry), or raises any other exception, which
propagates and ends the runner without retrying.  The loop is embedded with
the outcome of each attempt supplied by an oracle, and its externally
visible behavior recorded as an event trace. -/

/-- Outcome of one `ssh.connect` attempt. -/
inductive ConnAttempt where
  | ok : ConnAttempt
  | sshErr : ConnAttempt
  | otherErr : ConnAttempt
deriving DecidableEq, Repr

/-- Externally visible events of the `async_ssh` runner. -/
inductive SshEv where
  | tryConnect : SshEv
  | sleepRetry : SshEv
  | exitProcess : Nat → SshEv
  | raiseExc : SshEv
  | execCommand : SshEv
deriving DecidableEq, Repr

/-- Connection loop of `async_ssh`: returns the event trace of the
connection phase and whether the loop exited by successful connection. -/
def connect_loop (oracle : Nat → ConnAttempt) (attempt retries : Nat) :
    List SshEv × Bool :=
  match oracle attempt with
  | ConnAttempt.ok => ([SshEv.tryConnect], true)
  | ConnAttempt.otherErr => ([SshEv.tryConnect, SshEv.raiseExc], false)
  | ConnAttempt.sshErr =>
    if retries + 1 ≥ 3 then ([SshEv.tryConnect, SshEv.exitProcess 1], false)
    else
      let r := connect_loop oracle (attempt + 1) (retries + 1)
      (SshEv.tryConnect :: SshEv.sleepRetry :: r.1, r.2)
termination_by 3 - retries
decreasing_by omega

/-- Event trace of `async_ssh`: the connection phase, followed by
`exec_command` only when the connection phase succeeded. -/
def async_ssh_events (oracle : Nat → ConnAttempt) : List SshEv :=
  let r := connect_loop oracle 0 0
  if r.2 then r.1 ++ [SshEv.execCommand] else r.1

/-- C3: an authentication or protocol-level SSH failure is retried after a
sleep, up to 3 total attempts; after the 3rd consecutive failure the
process exits with status 1 and command execution is never reached; a
retried attempt that succeeds proceeds to command execution; and any other
exception kind propagates immediately without a retry. -/
theorem async_ssh_retry_policy (oracle : Nat → ConnAttempt) :
    (oracle 0 = ConnAttempt.sshErr → oracle 1 = ConnAttempt.sshErr →
      oracle 2 = ConnAttempt.sshErr →
      async_ssh_events oracle
        = [SshEv.tryConnect, SshEv.sleepRetry, SshEv.tryConnect, SshEv.sleepRetry,
           SshEv.tryConnect, SshEv.exitProcess 1]
      ∧ SshEv.execCommand ∉ async_ssh_events oracle)
    ∧ (oracle 0 = ConnAttempt.sshErr → oracle 1 = ConnAttempt.ok →
      async_ssh_events oracle
        = [SshEv.tryConnect, SshEv.sleepRetry, SshEv.tryConnect, SshEv.execCommand])
    ∧ (∀ k, k < 3 → (∀ j, j < k → oracle j = ConnAttempt.sshErr) →
      oracle k = ConnAttempt.otherErr →
      async_ssh_events oracle
        = (List.replicate k [SshEv.tryConnect, SshEv.sleepRetry]).flatten
          ++ [SshEv.tryConnect, SshEv.raiseExc]) := by
  refine ⟨?_, ?_, ?_⟩
  · intro h0 h1 h2
    constructor
    · simp [async_ssh_events, connect_loop, h0, h1, h2]
    · simp [async_ssh_events, connect_loop, h0, h1, h2]
  · intro h0 h1
    simp [async_ssh_events, connect_loop, h0, h1]
  · intro k hk hj hk2
    interval_cases k
    · simp [async_ssh_events, connect_loop, hk2]
    · have j0 := hj 0 (by omega)
      simp [async_ssh_events, connect_loop, j0, hk2]
    · have j0 := hj 0 (by omega)
      have j1 := hj 1 (by omega)
      simp [async_ssh_events, connect_loop, j0, j1, hk2]

/-- C3 witness: with every attempt failing as an SSH error, the trace shows
three attempts separated by sleeps, ending in a process exit with status 1,
and command execution never occurs. -/
theorem async_ssh_retry_policy_witness :
    async_ssh_events (fun _ => ConnAttempt.sshErr)
      = [SshEv.tryConnect, SshEv.sleepRetry, SshEv.tryConnect, SshEv.sleepRetry,
         SshEv.tryConnect, SshEv.exitProcess 1]
    ∧ SshEv.execCommand ∉ async_ssh_events (fun _ => ConnAttempt.sshErr) :=
  (async_ssh_retry_policy (fun _ => ConnAttempt.sshErr)).1 rfl rfl rfl

/-! ## Process handles (`cmd_dict`) and the Process Launcher entry points

A `cmd_dict` in the source bundles the command, display label, target
address (plus port for the scheduler), the two queues, and the ssh
credentials; `start_scheduler` / `start_worker` build one, start the
`async_ssh` thread on it, and return it.  Queues are embedded as lists of
their current contents (freshly empty at construction). -/

structure CmdHandle where
  cmd : String
  label : String
  address : String
  port : Option Nat
  input_queue : List String
  output_queue : List String
  ssh_username : Option String
  ssh_port : Nat
  ssh_private_key : Option String
deriving DecidableEq, Repr

/-- Handle returned by `start_scheduler` in the source (the scheduler
`cmd_dict`; the runner thread it starts is recorded by the launch traces of
the cluster operations below). -/
def start_scheduler (sys_executable : String) (logdir : Option String)
    (addr : String) (port : Nat) (ssh_username : Option String) (ssh_port : Nat)
    (ssh_private_key : Option String) (remote_python : Option String) : CmdHandle :=
  { cmd := start_scheduler_cmd sys_executable logdir addr port remote_python,
    label := bcolors.BOLD ++ "scheduler " ++ addr ++ ":" ++ toString port ++ bcolors.ENDC,
    address := addr,
    port := some port,
    input_queue := [],
    output_queue := [],
    ssh_username := ssh_username,
    ssh_port := ssh_port,
    ssh_private_key := ssh_private_key }

/-- Handle returned by `start_worker` in the source (the worker `cmd_dict`;
it carries no `port` key). -/
def start_worker (sys_executable : String) (logdir : Option String)
    (scheduler_addr : String) (scheduler_port : Nat) (worker_addr : String)
    (nthreads n_workers : Nat) (ssh_username : Option String) (ssh_port : Nat)
    (ssh_private_key : Option String) (nohost : Bool)
    (memory_limit worker_port nanny_port : Option Nat)
    (remote_python : Option String) (remote_dask_worker : String)
    (local_directory : Option String) : CmdHandle :=
  { cmd := start_worker_cmd sys_executable logdir scheduler_addr scheduler_port
      worker_addr nthreads n_workers nohost memory_limit worker_port nanny_port
      remote_python remote_dask_worker local_directory,
    label := "worker " ++ worker_addr,
    address := worker_addr,
    port := none,
    input_queue := [],
    output_queue := [],
    ssh_username := ssh_username,
    ssh_port := ssh_port,
    ssh_private_key := ssh_private_key }

/-! ## Cluster Supervisor state (`SSHCluster`) -/

/-- State of an `SSHCluster` instance after successful construction: the
stored launch parameters, the (timestamped) log directory, the scheduler
handle and the ordered worker handles.  The ambient interpreter path
(`sys.executable`) is carried so that later `add_worker` calls can resolve
it exactly as the source does at call time. -/
structure ClusterState where
  sys_executable : String
  scheduler_addr : String
  scheduler_port : Nat
  nthreads : Nat
  n_workers : Nat
  ssh_username : Option String
  ssh_port : Nat
  ssh_private_key : Option String
  nohost : Bool
  remote_python : Option String
  memory_limit : Option Nat
  worker_port : Option Nat
  nanny_port : Option Nat
  remote_dask_worker : String
  local_directory : Option String
  logdir : Option String
  scheduler : CmdHandle
  workers : List CmdHandle
deriving DecidableEq, Repr

namespace SSHCluster

/-- Translation of `SSHCluster.add_worker`: launches one more worker with
the stored parameters and appends its handle to the worker list. -/
def add_worker (st : ClusterState) (address : String) : ClusterState :=
  { st with workers := st.workers ++
      [start_worker st.sys_executable st.logdir st.scheduler_addr st.scheduler_port
        address st.nthreads st.n_workers st.ssh_username st.ssh_port
        st.ssh_private_key st.nohost st.memory_limit st.worker_port st.nanny_port
        st.remote_python st.remote_dask_worker st.local_directory] }

end SSHCluster

/-- Events of the `shutdown` loop: a put of a token onto a handle input
queue (identified by the handle label), or a join of a handle thread. -/
inductive ShutdownEv where
  | put : String → String → ShutdownEv
  | join : String → ShutdownEv
deriving DecidableEq, Repr

/-- Body of the `shutdown` loop over `[scheduler] + workers`: for each
process in order, put `"shutdown"` on its input queue, then join its
thread; returns the updated handles and the event trace. -/
def shutdown_loop : List CmdHandle → List CmdHandle × List ShutdownEv
  | [] => ([], [])
  | p :: rest =>
    let p2 := { p with input_queue := p.input_queue ++ ["shutdown"] }
    let r := shutdown_loop rest
    (p2 :: r.1, ShutdownEv.put p.label "shutdown" :: ShutdownEv.join p.label :: r.2)

namespace SSHCluster

/-- Translation of `SSHCluster.shutdown`: runs the loop over the scheduler
handle followed by the worker handles in order. -/
def shutdown (st : ClusterState) : List CmdHandle × List ShutdownEv :=
  shutdown_loop ([st.scheduler] ++ st.workers)

/-- Translation of `SSHCluster.__enter__`: returns the instance itself. -/
def context_enter (st : ClusterState) : ClusterState := st

/-- Translation of `SSHCluster.__exit__`: ignores the exception arguments
(`*args`) and calls `shutdown`. -/
def context_exit (st : ClusterState) (args : List String) :
    List CmdHandle × List ShutdownEv :=
  shutdown st

end SSHCluster

/-! ## Claims C5, C7, C8 -/

theorem shutdown_loop_spec (ps : List CmdHandle) :
    (shutdown_loop ps).1
      = ps.map (fun p => { p with input_queue := p.input_queue ++ ["shutdown"] })
    ∧ (shutdown_loop ps).2
      = (ps.map (fun p => [ShutdownEv.put p.label "shutdown", ShutdownEv.join p.label])).flatten := by
  induction ps with
  | nil => exact ⟨rfl, rfl⟩
  | cons p rest ih => simp [shutdown_loop, ih.1, ih.2]

/-- C5: `shutdown()` processes the handles in the order scheduler first,
then the workers in their original add-order; its event trace is exactly,
for each handle in that order, a put of the `"shutdown"` token onto that
handle's input channel immediately followed by the join of that handle's
background task, before any event of the next handle; and each handle ends
with the token appended to its input queue. -/
theorem shutdown_order_spec (st : ClusterState) :
    (SSHCluster.shutdown st).2
      = (([st.scheduler] ++ st.workers).map
          (fun p => [ShutdownEv.put p.label "shutdown", ShutdownEv.join p.label])).flatten
    ∧ (SSHCluster.shutdown st).1
      = ([st.scheduler] ++ st.workers).map
          (fun p => { p with input_queue := p.input_queue ++ ["shutdown"] }) :=
  ⟨(shutdown_loop_spec _).2, (shutdown_loop_spec _).1⟩

/-- C7: entering the scoped context returns the supervisor state itself,
and exiting the scope invokes `shutdown` regardless of the exception
arguments carried by the exit path. -/
theorem context_manager_spec :
    (∀ st : ClusterState, SSHCluster.context_enter st = st)
    ∧ ∀ (st : ClusterState) (args : List String),
        SSHCluster.context_exit st args = SSHCluster.shutdown st :=
  ⟨fun _ => rfl, fun _ _ => rfl⟩

/-- C8: `add_worker(address)` appends exactly one worker handle, built from
the stored launch parameters of the cluster, to the end of the worker list;
the scheduler handle and all pre-existing worker handles are unchanged; in
particular with one existing worker the list has length 2 afterwards and
its first element is the previous handle. -/
theorem add_worker_frame_spec (st : ClusterState) (a : String) :
    (SSHCluster.add_worker st a).scheduler = st.scheduler
    ∧ (SSHCluster.add_worker st a).workers
        = st.workers ++ [start_worker st.sys_executable st.logdir st.scheduler_addr
            st.scheduler_port a st.nthreads st.n_workers st.ssh_username st.ssh_port
            st.ssh_private_key st.nohost st.memory_limit st.worker_port st.nanny_port
            st.remote_python st.remote_dask_worker st.local_directory]
    ∧ (SSHCluster.add_worker st a).workers.length = st.workers.length + 1
    ∧ ∀ w, st.workers = [w] →
        (SSHCluster.add_worker st a).workers.length = 2
        ∧ (SSHCluster.add_worker st a).workers.head? = some w := by
  refine ⟨rfl, rfl, by simp [SSHCluster.add_worker], ?_⟩
  intro w hw
  simp [SSHCluster.add_worker, hw]

/-- Sample worker handle used by concrete witnesses. -/
def sampleWorker : CmdHandle :=
  start_worker "python3" none "10.0.0.1" 8786 "10.0.0.2" 0 1 none 22 none false
    none none none none "distributed.cli.dask_worker" none

/-- Sample running cluster state with one worker, used by concrete
witnesses. -/
def sampleState : ClusterState :=
  { sys_executable := "python3", scheduler_addr := "10.0.0.1", scheduler_port := 8786,
    nthreads := 0, n_workers := 1, ssh_username := none, ssh_port := 22,
    ssh_private_key := none, nohost := false, remote_python := none,
    memory_limit := none, worker_port := none, nanny_port := none,
    remote_dask_worker := "distributed.cli.dask_worker", local_directory := none,
    logdir := none,
    scheduler := start_scheduler "python3" none "10.0.0.1" 8786 none 22 none none,
    workers := [sampleWorker] }

/-- C8 witness: adding a worker to the sample one-worker cluster yields a
worker list of length 2 whose first element is the original handle. -/
theorem add_worker_frame_spec_witness :
    (SSHCluster.add_worker sampleState "10.0.0.3").workers.length = 2
    ∧ (SSHCluster.add_worker sampleState "10.0.0.3").workers.head? = some sampleWorker :=
  (add_worker_frame_spec sampleState "10.0.0.3").2.2.2 sampleWorker rfl

/-! ## Cluster construction (`SSHCluster.__init__`) -/

/-- Deprecation warning text issued for the legacy `nprocs` parameter. -/
def nprocs_deprecation_msg : String :=
  "The nprocs argument will be removed in a future release. It has been renamed to n_workers."

/-- Errors raised by cluster construction: `TypeError` for unexpected
keyword arguments, `ValueError` for the conflicting worker-count pair. -/
inductive InitError where
  | typeError : String → InitError
  | valueError : String → InitError
deriving DecidableEq, Repr

/-- Result of cluster construction: the warnings issued (via
`warnings.warn`), the labels of the runner threads launched (scheduler
first, then workers in order), and either the constructed state or the
raised error.  An error result means construction aborted and no object
exists. -/
structure InitResult where
  warnings : List String
  launches : List String
  result : Except InitError ClusterState

namespace SSHCluster

/-- Translation of `SSHCluster.__init__`: pop `nprocs` from the keyword
arguments and fail with a `TypeError` naming any remaining unexpected ones;
fail with a `ValueError` when both `nprocs` and `n_workers` are given;
resolve the worker count (legacy value with a deprecation warning, else the
given value, else 1); timestamp the log directory; start the scheduler,
then one worker per address via `add_worker`.  The two error paths return
before any launch happens. -/
def init (sys_executable now_str : String) (scheduler_addr : String)
    (scheduler_port : Nat) (worker_addrs : List String) (nthreads : Nat)
    (n_workers : Option Nat) (ssh_username : Option String) (ssh_port : Nat)
    (ssh_private_key : Option String) (nohost : Bool) (logdir : Option String)
    (remote_python : Option String) (memory_limit worker_port nanny_port : Option Nat)
    (remote_dask_worker : String) (local_directory : Option String)
    (nprocs : Option Nat) (extra_kwargs : List String) : InitResult :=
  if extra_kwargs ≠ [] then
    { warnings := [], launches := [],
      result := Except.error (InitError.typeError
        ("__init__() got an unexpected keyword argument " ++ joinComma extra_kwargs)) }
  else if nprocs.isSome && n_workers.isSome then
    { warnings := [], launches := [],
      result := Except.error (InitError.valueError
        "Both nprocs and n_workers were specified. Use n_workers only.") }
  else
    let warnings := if nprocs.isSome then [nprocs_deprecation_msg] else []
    let n_workers2 : Nat :=
      match nprocs, n_workers with
      | some a, _ => a
      | none, some b => b
      | none, none => 1
    let logdir2 := logdir.map (fun ld => pyPathJoin ld ("dask-ssh_" ++ now_str))
    let sched := start_scheduler sys_executable logdir2 scheduler_addr scheduler_port
      ssh_username ssh_port ssh_private_key remote_python
    let st0 : ClusterState :=
      { sys_executable := sys_executable, scheduler_addr := scheduler_addr,
        scheduler_port := scheduler_port, nthreads := nthreads,
        n_workers := n_workers2, ssh_username := ssh_username, ssh_port := ssh_port,
        ssh_private_key := ssh_private_key, nohost := nohost,
        remote_python := remote_python, memory_limit := memory_limit,
        worker_port := worker_port, nanny_port := nanny_port,
        remote_dask_worker := remote_dask_worker, local_directory := local_directory,
        logdir := logdir2, scheduler := sched, workers := [] }
    let stF := worker_addrs.foldl SSHCluster.add_worker st0
    { warnings := warnings,
      launches := sched.label :: stF.workers.map (fun w => w.label),
      result := Except.ok stF }

end SSHCluster

theorem foldl_add_worker_n_workers (l : List String) (s : ClusterState) :
    (l.foldl SSHCluster.add_worker s).n_workers = s.n_workers := by
  induction l generalizing s with
  | nil => rfl
  | cons a t ih => exact (ih _).trans rfl

/-! ## Claims C4, C9, C10 -/

/-- C4: when both the legacy worker-count parameter (`nprocs`) and the
current one (`n_workers`) are supplied with non-None values, construction
fails with an error and launches no runner thread (no remote connection is
attempted); when no other unexpected keyword argument is present the error
is precisely the `ValueError` about the conflicting pair. -/
theorem init_rejects_both (sys_executable now_str scheduler_addr : String)
    (scheduler_port : Nat) (worker_addrs : List String) (nthreads : Nat)
    (n_workers : Option Nat) (ssh_username : Option String) (ssh_port : Nat)
    (ssh_private_key : Option String) (nohost : Bool) (logdir : Option String)
    (remote_python : Option String) (memory_limit worker_port nanny_port : Option Nat)
    (remote_dask_worker : String) (local_directory : Option String)
    (nprocs : Option Nat) (extra_kwargs : List String) (a b : Nat)
    (hn : nprocs = some a) (hw : n_workers = some b) :
    (SSHCluster.init sys_executable now_str scheduler_addr scheduler_port worker_addrs
      nthreads n_workers ssh_username ssh_port ssh_private_key nohost logdir
      remote_python memory_limit worker_port nanny_port remote_dask_worker
      local_directory nprocs extra_kwargs).launches = []
    ∧ (∃ e, (SSHCluster.init sys_executable now_str scheduler_addr scheduler_port worker_addrs
        nthreads n_workers ssh_username ssh_port ssh_private_key nohost logdir
        remote_python memory_limit worker_port nanny_port remote_dask_worker
        local_directory nprocs extra_kwargs).result = Except.error e)
    ∧ (extra_kwargs = [] →
      (SSHCluster.init sys_executable now_str scheduler_addr scheduler_port worker_addrs
        nthreads n_workers ssh_username ssh_port ssh_private_key nohost logdir
        remote_python memory_limit worker_port nanny_port remote_dask_worker
        local_directory nprocs extra_kwargs).result
        = Except.error (InitError.valueError
            "Both nprocs and n_workers were specified. Use n_workers only.")) := by
  subst hn hw
  by_cases hx : extra_kwargs = []
  · subst hx
    exact ⟨rfl, ⟨_, rfl⟩, fun _ => rfl⟩
  · refine ⟨?_, ⟨InitError.typeError
      ("__init__() got an unexpected keyword argument " ++ joinComma extra_kwargs), ?_⟩,
      fun h => absurd h hx⟩
    · simp [SSHCluster.init, hx]
    · simp [SSHCluster.init, hx]

/-- C4 witness: concrete construction with both `nprocs=2` and
`n_workers=3` launches nothing and raises the `ValueError`. -/
theorem init_rejects_both_witness :
    (SSHCluster.init "python3" "2022-01-01_00:00:00" "10.0.0.1" 8786 ["10.0.0.2"] 0
      (some 3) none 22 none false none none none none none
      "distributed.cli.dask_worker" none (some 2) []).launches = []
    ∧ (SSHCluster.init "python3" "2022-01-01_00:00:00" "10.0.0.1" 8786 ["10.0.0.2"] 0
      (some 3) none 22 none false none none none none none
      "distributed.cli.dask_worker" none (some 2) []).result
      = Except.error (InitError.valueError
          "Both nprocs and n_workers were specified. Use n_workers only.") :=
  ⟨(init_rejects_both "python3" "2022-01-01_00:00:00" "10.0.0.1" 8786 ["10.0.0.2"] 0
      (some 3) none 22 none false none none none none none
      "distributed.cli.dask_worker" none (some 2) [] 2 3 rfl rfl).1,
   (init_rejects_both "python3" "2022-01-01_00:00:00" "10.0.0.1" 8786 ["10.0.0.2"] 0
      (some 3) none 22 none false none none none none none
      "distributed.cli.dask_worker" none (some 2) [] 2 3 rfl rfl).2.2 rfl⟩

/-- C9: when only the legacy worker-count parameter `nprocs` is supplied,
construction succeeds, the deprecation notice is issued, and the effective
worker-process count of the resulting cluster equals the legacy value. -/
theorem init_nprocs_legacy (sys_executable now_str scheduler_addr : String)
    (scheduler_port : Nat) (worker_addrs : List String) (nthreads : Nat)
    (n_workers : Option Nat) (ssh_username : Option String) (ssh_port : Nat)
    (ssh_private_key : Option String) (nohost : Bool) (logdir : Option String)
    (remote_python : Option String) (memory_limit worker_port nanny_port : Option Nat)
    (remote_dask_worker : String) (local_directory : Option String)
    (nprocs : Option Nat) (extra_kwargs : List String) (a : Nat)
    (h1 : extra_kwargs = []) (h2 : nprocs = some a) (h3 : n_workers = none) :
    (SSHCluster.init sys_executable now_str scheduler_addr scheduler_port worker_addrs
      nthreads n_workers ssh_username ssh_port ssh_private_key nohost logdir
      remote_python memory_limit worker_port nanny_port remote_dask_worker
      local_directory nprocs extra_kwargs).warnings = [nprocs_deprecation_msg]
    ∧ ∃ st, (SSHCluster.init sys_executable now_str scheduler_addr scheduler_port worker_addrs
        nthreads n_workers ssh_username ssh_port ssh_private_key nohost logdir
        remote_python memory_limit worker_port nanny_port remote_dask_worker
        local_directory nprocs extra_kwargs).result = Except.ok st
      ∧ st.n_workers = a := by
  subst h1 h2 h3
  exact ⟨rfl, ⟨_, rfl, (foldl_add_worker_n_workers _ _).trans rfl⟩⟩

/-- C9 witness: concrete construction with `nprocs=4` issues exactly the
deprecation notice. -/
theorem init_nprocs_legacy_witness :
    (SSHCluster.init "python3" "2022-01-01_00:00:00" "10.0.0.1" 8786 ["10.0.0.2"] 0
      none none 22 none false none none none none none
      "distributed.cli.dask_worker" none (some 4) []).warnings
      = [nprocs_deprecation_msg] :=
  (init_nprocs_legacy "python3" "2022-01-01_00:00:00" "10.0.0.1" 8786 ["10.0.0.2"] 0
    none none 22 none false none none none none none
    "distributed.cli.dask_worker" none (some 4) [] 4 rfl rfl rfl).1

/-- C10: any keyword argument other than the documented parameters and the
legacy name `nprocs` makes construction fail with a `TypeError` naming the
unexpected argument, with no runner thread launched (an error result means
construction aborted, so no state and no stored parameter exists); and when
neither `nprocs` nor `n_workers` is supplied the worker-process count
defaults to 1, so the default worker command carries no `--nworkers` flag. -/
theorem init_unexpected_kwarg (sys_executable now_str scheduler_addr : String)
    (scheduler_port : Nat) (worker_addrs : List String) (nthreads : Nat)
    (n_workers : Option Nat) (ssh_username : Option String) (ssh_port : Nat)
    (ssh_private_key : Option String) (nohost : Bool) (logdir : Option String)
    (remote_python : Option String) (memory_limit worker_port nanny_port : Option Nat)
    (remote_dask_worker : String) (local_directory : Option String)
    (nprocs : Option Nat) (extra_kwargs : List String) :
    (∀ name : String, extra_kwargs = [name] →
      (SSHCluster.init sys_executable now_str scheduler_addr scheduler_port worker_addrs
        nthreads n_workers ssh_username ssh_port ssh_private_key nohost logdir
        remote_python memory_limit worker_port nanny_port remote_dask_worker
        local_directory nprocs extra_kwargs).result
        = Except.error (InitError.typeError
            ("__init__() got an unexpected keyword argument " ++ name))
      ∧ (SSHCluster.init sys_executable now_str scheduler_addr scheduler_port worker_addrs
        nthreads n_workers ssh_username ssh_port ssh_private_key nohost logdir
        remote_python memory_limit worker_port nanny_port remote_dask_worker
        local_directory nprocs extra_kwargs).launches = [])
    ∧ (extra_kwargs = [] → nprocs = none → n_workers = none →
      ∃ st, (SSHCluster.init sys_executable now_str scheduler_addr scheduler_port worker_addrs
        nthreads n_workers ssh_username ssh_port ssh_private_key nohost logdir
        remote_python memory_limit worker_port nanny_port remote_dask_worker
        local_directory nprocs extra_kwargs).result = Except.ok st
      ∧ st.n_workers = 1)
    ∧ containsSub (start_worker_cmd "python3" none "10.0.0.1" 8786 "10.0.0.2" 0 1 false
        none none none none "distributed.cli.dask_worker" none).data
        " --nworkers".data = false := by
  refine ⟨?_, ?_, by rfl⟩
  · intro name hx
    subst hx
    constructor
    · simp [SSHCluster.init, joinComma]
    · simp [SSHCluster.init]
  · intro h1 h2 h3
    subst h1 h2 h3
    exact ⟨_, rfl, (foldl_add_worker_n_workers _ _).trans rfl⟩

/-- C10 witness: concrete construction with the unexpected keyword argument
`banana` raises the naming `TypeError` and launches nothing. -/
theorem init_unexpected_kwarg_witness :
    (SSHCluster.init "python3" "2022-01-01_00:00:00" "10.0.0.1" 8786 ["10.0.0.2"] 0
      none none 22 none false none none none none none
      "distributed.cli.dask_worker" none none ["banana"]).result
      = Except.error (InitError.typeError
          ("__init__() got an unexpected keyword argument " ++ "banana"))
    ∧ (SSHCluster.init "python3" "2022-01-01_00:00:00" "10.0.0.1" 8786 ["10.0.0.2"] 0
      none none 22 none false none none none none none
      "distributed.cli.dask_worker" none none ["banana"]).launches = [] :=
  (init_unexpected_kwarg "python3" "2022-01-01_00:00:00" "10.0.0.1" 8786 ["10.0.0.2"] 0
    none none 22 none false none none none none none
    "distributed.cli.dask_worker" none none ["banana"]).1 "banana" rfl
